import Mathlib

/-
Verification of the SystmOne PDF Manager skeleton.

The repository has two Python files:
  src/main/python/pdf_viewer/main.py            -- application bootstrap
  src/main/python/pdf_viewer/ui/main_window.py  -- MainWindow (PyQt6)

The embedding below models the PyQt6 calls the code makes as explicit
state transitions on a MainWindow record.  The filesystem is a predicate
(String to Bool) saying which paths exist; Qt signal/slot connections are
modelled as a list of abstract slot identifiers together with an
interpretation function, and the event loop as a fold over a finite list
of UI events.
-/

namespace PdfViewer

/-- Python posixpath.join of two components: if the second is absolute it
replaces the first; otherwise a separator is inserted unless the first is
empty or already ends in one. -/
def os_path_join2 (a b : String) : String :=
  if b.startsWith "/" then b
  else if a = "" then b
  else if a.endsWith "/" then a ++ b
  else a ++ "/" ++ b

/-- Python os.path.join(a, b, c) folds the two-component join left. -/
def os_path_join3 (a b c : String) : String :=
  os_path_join2 (os_path_join2 a b) c

/-- Index one past the last slash of the character list, 0 when there is
none (Python str.rfind of the separator, plus one). -/
def lastSlashIdx (cs : List Char) : Nat :=
  (List.range cs.length).foldl
    (fun acc j => if cs.get? j = some '/' then j + 1 else acc) 0

/-- Python posixpath.dirname: keep everything up to and including the last
slash, then strip trailing slashes unless the head is empty or consists
only of slashes. -/
def os_path_dirname (p : String) : String :=
  let cs := p.toList
  let head := cs.take (lastSlashIdx cs)
  let head :=
    if !head.isEmpty && head.any (fun c => !(c == '/')) then
      (head.reverse.dropWhile (fun c => c == '/')).reverse
    else head
  String.mk head

/-- Qt QSize: a width/height pair. -/
structure QSize where
  width : Nat
  height : Nat
deriving DecidableEq, Repr

/-- Qt QIcon, as far as this program observes it: the path it was
constructed from, and whether that file existed (Qt loads the pixmap
lazily; a missing file gives an icon with no pixmap, never an error). -/
structure QIcon where
  sourcePath : String
  fileExists : Bool
deriving DecidableEq, Repr

/-- Constructing a QIcon from a path never fails in Qt; the icon records
whether the file is present in the given filesystem. -/
def QIcon.fromFile (fs : String → Bool) (path : String) : QIcon :=
  ⟨path, fs path⟩

/-- Fallible view of icon construction.  Qt documents QIcon(path) as
total: a missing file yields a null-pixmap icon, so this always succeeds.
The Except layer exists to make "does not raise" a provable statement. -/
def QIcon.fromFileE (fs : String → Bool) (path : String) :
    Except String QIcon :=
  Except.ok (QIcon.fromFile fs path)

/-- What the icon paints: the pixmap source when the file exists, nothing
(a blank icon) when it does not. -/
def QIcon.renderedPixmap (i : QIcon) : Option String :=
  if i.fileExists then some i.sourcePath else none

/-- Abstract identifier of a Qt slot (a handler a signal can connect to). -/
abbrev Slot := Nat

/-- Qt QAction: icon, display text, and the list of slots connected to its
triggered signal. -/
structure QAction where
  icon : QIcon
  text : String
  connections : List Slot
deriving DecidableEq, Repr

/-- An entry of a toolbar: either an action or a visual separator. -/
inductive ToolBarItem where
  | action (a : QAction)
  | separator
deriving DecidableEq, Repr

/-- Whether a toolbar entry is a separator. -/
def ToolBarItem.isSeparator : ToolBarItem → Bool
  | ToolBarItem.action _ => false
  | ToolBarItem.separator => true

/-- Qt QToolBar: title, icon size, and its entries in order. -/
structure QToolBar where
  title : String
  iconSize : QSize
  items : List ToolBarItem
deriving DecidableEq, Repr

/-- A fresh QToolBar with the given title.  Qt starts it with a
style-dependent default icon size (modelled as 24 by 24, the common
default) and no entries; this program overwrites the icon size before the
toolbar becomes observable. -/
def QToolBar.new (title : String) : QToolBar :=
  ⟨title, ⟨24, 24⟩, []⟩

/-- The window state this program touches: the captured project root and
the Qt-side window properties its calls set. -/
structure MainWindow where
  project_root : String
  windowTitle : String
  minimumSize : QSize
  maximized : Bool
  shown : Bool
  toolbars : List QToolBar
deriving DecidableEq, Repr

/-- State after QMainWindow.__init__ (the super().__init__() call): empty
title, zero minimum size, not maximized, not shown, no toolbars, and the
Python attribute project_root not yet assigned (empty placeholder). -/
def QMainWindow.new : MainWindow :=
  ⟨"", "", ⟨0, 0⟩, false, false, []⟩

/-- setWindowTitle. -/
def MainWindow.setWindowTitle (w : MainWindow) (t : String) : MainWindow :=
  { w with windowTitle := t }

/-- setMinimumSize. -/
def MainWindow.setMinimumSize (w : MainWindow) (x y : Nat) : MainWindow :=
  { w with minimumSize := ⟨x, y⟩ }

/-- showMaximized: shows the window and sets the maximized window state. -/
def MainWindow.showMaximized (w : MainWindow) : MainWindow :=
  { w with maximized := true, shown := true }

/-- show. -/
def MainWindow.show (w : MainWindow) : MainWindow :=
  { w with shown := true }

/-- addToolBar appends the toolbar to the window's toolbar area. -/
def MainWindow.addToolBar (w : MainWindow) (tb : QToolBar) : MainWindow :=
  { w with toolbars := w.toolbars ++ [tb] }

/-- setup_toolbar from main_window.py.  Qt installs the toolbar by
reference, so the setIconSize, addAction and addSeparator calls made after
addToolBar are visible on the installed toolbar; the embedding therefore
applies them to the toolbar value and installs the result. -/
def MainWindow.setup_toolbar (fs : String → Bool) (w : MainWindow) :
    MainWindow :=
  let icon_path := os_path_join3 w.project_root "assets" "smile.png"
  let toolbar := QToolBar.new "Main Toolbar"
  let toolbar := { toolbar with iconSize := ⟨16, 16⟩ }
  let my_action : QAction :=
    ⟨QIcon.fromFile fs icon_path, "Smile...", []⟩
  let toolbar :=
    { toolbar with items := toolbar.items ++ [ToolBarItem.action my_action] }
  let toolbar :=
    { toolbar with items := toolbar.items ++ [ToolBarItem.separator] }
  w.addToolBar toolbar

/-- setup_thumbnail_area is a pass statement. -/
def MainWindow.setup_thumbnail_area (w : MainWindow) : MainWindow := w

/-- setup_preview_pane is a pass statement. -/
def MainWindow.setup_preview_pane (w : MainWindow) : MainWindow := w

/-- setup_ui calls the three setup steps in order. -/
def MainWindow.setup_ui (fs : String → Bool) (w : MainWindow) : MainWindow :=
  ((w.setup_toolbar fs).setup_thumbnail_area).setup_preview_pane

/-- MainWindow.__init__: super().__init__(), assign project_root, set
title and minimum size, showMaximized, then setup_ui. -/
def MainWindow.init (fs : String → Bool) (project_root : String) :
    MainWindow :=
  let w := QMainWindow.new
  let w := { w with project_root := project_root }
  let w := w.setWindowTitle "SystmOne PDF Manager"
  let w := w.setMinimumSize 910 540
  let w := w.showMaximized
  w.setup_ui fs

/-- Fallible view of setup_toolbar: the only step that could plausibly
fail is the icon load, and Qt makes it total. -/
def MainWindow.setup_toolbarE (fs : String → Bool) (w : MainWindow) :
    Except String MainWindow :=
  let icon_path := os_path_join3 w.project_root "assets" "smile.png"
  match QIcon.fromFileE fs icon_path with
  | Except.error e => Except.error e
  | Except.ok ic =>
    let toolbar := QToolBar.new "Main Toolbar"
    let toolbar := { toolbar with iconSize := ⟨16, 16⟩ }
    let my_action : QAction := ⟨ic, "Smile...", []⟩
    let toolbar :=
      { toolbar with items := toolbar.items ++ [ToolBarItem.action my_action] }
    let toolbar :=
      { toolbar with items := toolbar.items ++ [ToolBarItem.separator] }
    Except.ok (w.addToolBar toolbar)

/-- Fallible view of MainWindow.__init__, threading the one fallible-
looking step (the icon load) through Except. -/
def MainWindow.initE (fs : String → Bool) (project_root : String) :
    Except String MainWindow :=
  let w := QMainWindow.new
  let w := { w with project_root := project_root }
  let w := w.setWindowTitle "SystmOne PDF Manager"
  let w := w.setMinimumSize 910 540
  let w := w.showMaximized
  match w.setup_toolbarE fs with
  | Except.error e => Except.error e
  | Except.ok w =>
    Except.ok (w.setup_thumbnail_area.setup_preview_pane)

/-- The first action entry of the first toolbar, if any: the target the
user activates when clicking the Smile button. -/
def MainWindow.findFirstAction (w : MainWindow) : Option QAction :=
  match w.toolbars with
  | [] => none
  | tb :: _ =>
    tb.items.findSome? fun it =>
      match it with
      | ToolBarItem.action a => some a
      | ToolBarItem.separator => none

/-- Triggering an action runs every slot connected to its triggered
signal, in order, under the given slot interpretation. -/
def QAction.trigger (interp : Slot → MainWindow → MainWindow)
    (a : QAction) (w : MainWindow) : MainWindow :=
  a.connections.foldl (fun s slot => interp slot s) w

/-- A user input event the running application can receive. -/
inductive UiEvent where
  | triggerSmile
  | close
deriving DecidableEq, Repr

/-- Qt QApplication, holding the argv it was constructed with. -/
structure QApplication where
  argv : List String
deriving DecidableEq, Repr

/-- app.exec: dispatch user events in order until the window is closed or
the (finite) event stream ends, then return the final window and the exit
code 0.  Activating the toolbar action runs its connected slots. -/
def QApplication.exec (interp : Slot → MainWindow → MainWindow) :
    MainWindow → List UiEvent → MainWindow × Nat
  | w, [] => (w, 0)
  | w, UiEvent.close :: _ => (w, 0)
  | w, UiEvent.triggerSmile :: rest =>
    let w2 :=
      match w.findFirstAction with
      | some a => a.trigger interp w
      | none => w
    QApplication.exec interp w2 rest

/-- main from main.py: construct the QApplication from argv, take the
directory of the absolute path of the entry script as project root,
construct the window, show it, and hand control to the event loop.  The
absolute path of the entry script is environment-determined and passed in;
blocking on the loop is modelled by folding the finite event stream. -/
def main (fs : String → Bool) (interp : Slot → MainWindow → MainWindow)
    (argv : List String) (scriptAbsPath : String)
    (events : List UiEvent) : MainWindow × Nat :=
  let _app := QApplication.mk argv
  let project_root := os_path_dirname scriptAbsPath
  let window := MainWindow.init fs project_root
  let window := window.show
  QApplication.exec interp window events

/-- Replace an action's icon by a fixed dummy, erasing everything the
icon carries. -/
def QAction.scrubIcon (a : QAction) : QAction :=
  { a with icon := ⟨"", false⟩ }

/-- Erase the icon of a toolbar entry. -/
def ToolBarItem.scrubIcon : ToolBarItem → ToolBarItem
  | ToolBarItem.action a => ToolBarItem.action a.scrubIcon
  | ToolBarItem.separator => ToolBarItem.separator

/-- Erase from a window the project root and every icon: what remains is
the part of the window state that must not depend on the root. -/
def MainWindow.scrubRootData (w : MainWindow) : MainWindow :=
  { w with
    project_root := ""
    toolbars := w.toolbars.map fun tb =>
      { tb with items := tb.items.map ToolBarItem.scrubIcon } }

/-- The event loop started on the freshly constructed and shown window
never changes it: the only action it can dispatch has no connections. -/
lemma exec_init_const (fs : String → Bool) (root : String)
    (interp : Slot → MainWindow → MainWindow) :
    ∀ events, QApplication.exec interp ((MainWindow.init fs root).show) events
      = ((MainWindow.init fs root).show, 0)
  | [] => rfl
  | UiEvent.close :: _ => rfl
  | UiEvent.triggerSmile :: rest => exec_init_const fs root interp rest

/-- C4: for every project root path (and filesystem), after construction
the window title equals the fixed string "SystmOne PDF Manager". -/
theorem window_title_fixed (fs : String → Bool) (root : String) :
    (MainWindow.init fs root).windowTitle = "SystmOne PDF Manager" := rfl

/-- C5: for every project root path, after construction the minimum size
is the fixed constants 910 by 540, hence at least 910 by 540. -/
theorem minimum_size_fixed (fs : String → Bool) (root : String) :
    (MainWindow.init fs root).minimumSize = ⟨910, 540⟩ ∧
    910 ≤ (MainWindow.init fs root).minimumSize.width ∧
    540 ≤ (MainWindow.init fs root).minimumSize.height :=
  ⟨rfl, Nat.le_refl _, Nat.le_refl _⟩

/-- C6: for every project root path, after construction the window
reports a maximized display state. -/
theorem maximized_after_construction (fs : String → Bool) (root : String) :
    (MainWindow.init fs root).maximized = true := rfl

/-- C10: for every project root path, after construction the toolbar's
icon size is the fixed constant 16 by 16 pixels. -/
theorem toolbar_icon_size_fixed (fs : String → Bool) (root : String) :
    (MainWindow.init fs root).toolbars.map QToolBar.iconSize = [⟨16, 16⟩] :=
  rfl

/-- C2: for every project root path, the constructed window has exactly
one toolbar whose entries are exactly one action followed by a separator;
the action's text is "Smile..." and its icon was loaded from the path
obtained by joining the project root with assets and smile.png; before
any separator the toolbar holds exactly that one action. -/
theorem toolbar_contents (fs : String → Bool) (root : String) :
    ∃ a : QAction,
      (MainWindow.init fs root).toolbars.map QToolBar.items =
        [[ToolBarItem.action a, ToolBarItem.separator]] ∧
      a.text = "Smile..." ∧
      a.icon.sourcePath = os_path_join3 root "assets" "smile.png" ∧
      (MainWindow.init fs root).toolbars.map
          (fun tb => tb.items.takeWhile fun it => !it.isSeparator) =
        [[ToolBarItem.action a]] :=
  ⟨⟨QIcon.fromFile fs (os_path_join3 root "assets" "smile.png"),
      "Smile...", []⟩, rfl, rfl, rfl, rfl⟩

/-- C1: constructing the window when the icon file is absent does not
raise: construction returns normally, the window is shown, and the icon
of the toolbar action renders as blank. -/
theorem missing_icon_graceful (fs : String → Bool) (root : String)
    (h : fs (os_path_join3 root "assets" "smile.png") = false) :
    ∃ w, MainWindow.initE fs root = Except.ok w ∧ w.shown = true ∧
      (w.findFirstAction.map fun a => a.icon.renderedPixmap) = some none := by
  refine ⟨MainWindow.init fs root, rfl, rfl, ?_⟩
  show some (QIcon.renderedPixmap
    (QIcon.fromFile fs (os_path_join3 root "assets" "smile.png"))) = some none
  simp [QIcon.fromFile, QIcon.renderedPixmap, h]

/-- Witness for C1 at a concrete root and an empty filesystem. -/
theorem missing_icon_graceful_witness :
    (fun _ => false : String → Bool)
        (os_path_join3 "/proj" "assets" "smile.png") = false ∧
    (∃ w, MainWindow.initE (fun _ => false) "/proj" = Except.ok w ∧
      w.shown = true ∧
      (w.findFirstAction.map fun a => a.icon.renderedPixmap) = some none) :=
  ⟨rfl, missing_icon_graceful (fun _ => false) "/proj" rfl⟩

/-- C3: the Smile action of the constructed window is connected to no
slot, and for every sequence of user events (in particular every sequence
of activations of that action), dispatching them leaves the window
unchanged, under every interpretation of slots. -/
theorem smile_action_inert (fs : String → Bool) (root : String)
    (interp : Slot → MainWindow → MainWindow) (events : List UiEvent) :
    (MainWindow.init fs root).findFirstAction.map QAction.connections =
      some [] ∧
    (QApplication.exec interp ((MainWindow.init fs root).show) events).fst =
      (MainWindow.init fs root).show :=
  ⟨rfl, by rw [exec_init_const]⟩

/-- C9: setup_ui performs exactly the three setup steps in the fixed
order toolbar, thumbnail area, preview pane, and the latter two leave the
window unchanged, so setup_ui coincides with toolbar setup alone. -/
theorem setup_steps_order (fs : String → Bool) (w : MainWindow) :
    MainWindow.setup_ui fs w =
      ((w.setup_toolbar fs).setup_thumbnail_area).setup_preview_pane ∧
    w.setup_thumbnail_area = w ∧
    w.setup_preview_pane = w ∧
    MainWindow.setup_ui fs w = w.setup_toolbar fs :=
  ⟨rfl, rfl, rfl, rfl⟩

/-- C7: project_root is assigned at construction to the constructor
argument; every subsequent operation of the program (the setup steps, the
window setters, show, showMaximized, addToolBar, and the whole event
loop) preserves it; and erasing the root together with the icons from the
constructed window yields a state independent of both the root and the
filesystem, so the root is used solely to build the icon's file path. -/
theorem project_root_set_once (fs fs2 : String → Bool) (r r2 t : String)
    (x y : Nat) (tb : QToolBar) (w : MainWindow)
    (interp : Slot → MainWindow → MainWindow) (events : List UiEvent) :
    (MainWindow.init fs r).project_root = r ∧
    (w.setup_ui fs).project_root = w.project_root ∧
    (w.setup_toolbar fs).project_root = w.project_root ∧
    w.setup_thumbnail_area.project_root = w.project_root ∧
    w.setup_preview_pane.project_root = w.project_root ∧
    (w.setWindowTitle t).project_root = w.project_root ∧
    (w.setMinimumSize x y).project_root = w.project_root ∧
    w.showMaximized.project_root = w.project_root ∧
    w.show.project_root = w.project_root ∧
    (w.addToolBar tb).project_root = w.project_root ∧
    (QApplication.exec interp ((MainWindow.init fs r).show) events).fst.project_root
      = r ∧
    (MainWindow.init fs r).scrubRootData = (MainWindow.init fs2 r2).scrubRootData :=
  ⟨rfl, rfl, rfl, rfl, rfl, rfl, rfl, rfl, rfl, rfl,
    by rw [exec_init_const]; rfl, rfl⟩


/-- C8: main resolves the directory containing the entry script,
constructs the window with exactly that directory as project root, shows
it, and then runs the event loop over the incoming events; the loop
leaves the window as constructed and shown, with exit code 0. -/
theorem bootstrap_contract (fs : String → Bool)
    (interp : Slot → MainWindow → MainWindow) (argv : List String)
    (scriptAbsPath : String) (events : List UiEvent) :
    main fs interp argv scriptAbsPath events =
      ((MainWindow.init fs (os_path_dirname scriptAbsPath)).show, 0) ∧
    (main fs interp argv scriptAbsPath events).fst.project_root =
      os_path_dirname scriptAbsPath ∧
    (main fs interp argv scriptAbsPath events).fst.shown = true := by
  have hm : main fs interp argv scriptAbsPath events =
      ((MainWindow.init fs (os_path_dirname scriptAbsPath)).show, 0) :=
    exec_init_const fs (os_path_dirname scriptAbsPath) interp events
  exact ⟨hm, by rw [hm]; rfl, by rw [hm]; rfl⟩

end PdfViewer
